import Mathlib

/-!
Verification of the library-circulation core (Libro / Prestamo / Socio /
Biblioteca) against its specification.

Modelling conventions, shared by every definition below:

* Time instants are milliseconds, as `Date.getTime()` returns them, of type
  `Int`.  Every method of the source that calls `new Date()` takes the current
  instant `now` as an explicit first argument.  A calendar day is the fixed
  amount of 86400000 ms (`setDate(getDate() + d)` is modelled as adding
  `d * 86400000`).
* Monetary amounts are integers.  Every amount the program itself produces is
  an integer (per-diem fine of 50 per overdue day), and no specified property
  depends on fractional user payments.
* A thrown `Error` is modelled by returning `(some e, state)` where `e` is the
  `LibError` constructor naming the throw site and `state` is the mutable
  state exactly as it was at the moment of the throw; a normal return is
  `(none, state)`.  This keeps the source's order of checks and mutations, so
  "failures leave state unchanged" is a property to prove, not a convention.
* In the source, `Prestamo.libro` is an object reference and loan lookup uses
  reference equality (`===`).  The coordinator keeps ISBNs unique in its
  inventory (`agregarLibro` rejects duplicates), so a reference to a `Libro`
  is modelled by its ISBN (`Prestamo.libroIsbn`), and `historialLectura`
  stores the `Libro` value at return time.
* `Notificacion.mensaje`, the free-text message, is elided: it is built by
  string interpolation over locale-formatted dates and no specified property
  reads it.  The `id` and `datos` fields are elided for the same reason.
-/

namespace Tarea1

/-- Length of one calendar day in milliseconds. -/
def msPerDay : Int := 86400000

/-- `Math.ceil(a / b)` for integers `a` and positive `b`, as the source
computes day counts from millisecond differences. -/
def ceilDiv (a b : Int) : Int := -((-a) / b)

/-- The `TipoNotificacion` union type of the source. -/
inductive TipoNotificacion
  | libro_vencido
  | reserva_disponible
  | evento_proximo
  | multa_pendiente
  | evento_cancelado
  | renovacion_disponible
  | nuevo_libro_autor_favorito
deriving DecidableEq

/-- The `PrioridadNotificacion` union type of the source. -/
inductive PrioridadNotificacion
  | alta
  | media
  | baja
deriving DecidableEq

/-- `Notificacion`: type tag, priority, read flag and creation instant
(`mensaje`, `id` and `datos` elided, see the header comment). -/
structure Notificacion where
  tipo : TipoNotificacion
  prioridad : PrioridadNotificacion
  leida : Bool
  fechaCreacion : Int
deriving DecidableEq

/-- `Notificacion.getAntiguedadEnDias`: `Math.floor` of the age in days. -/
def Notificacion.getAntiguedadEnDias (now : Int) (n : Notificacion) : Int :=
  (now - n.fechaCreacion) / msPerDay

/-- `Notificacion.debeExpirar` at the default threshold of 30 days. -/
def Notificacion.debeExpirar (now : Int) (n : Notificacion) (diasExpiracion : Int) : Bool :=
  n.getAntiguedadEnDias now > diasExpiracion

/-- `GestorNotificaciones.limpiarNotificacionesExpiradas` (auto-prune on
insert), at the default threshold of 30 days. -/
def limpiarNotificacionesExpiradas (now : Int) (ns : List Notificacion) : List Notificacion :=
  ns.filter (fun n => ! n.debeExpirar now 30)

/-- `GestorNotificaciones.crearNotificacion`: build an unread notification
dated `now`, prepend it (`unshift`), then prune expired ones. -/
def crearNotificacion (now : Int) (tipo : TipoNotificacion)
    (prioridad : PrioridadNotificacion) (ns : List Notificacion) : List Notificacion :=
  limpiarNotificacionesExpiradas now (⟨tipo, prioridad, false, now⟩ :: ns)

/-- `Autor`: name, biography and birth year. -/
structure Autor where
  nombre : String
  biografia : String
  anoNacimiento : Int
deriving DecidableEq

/-- `Libro`: title, author, ISBN and the reservation queue of socio ids
(insertion order = queue order). -/
structure Libro where
  titulo : String
  autor : Autor
  isbn : String
  reservas : List Int
deriving DecidableEq

/-- `Libro.agregarReserva`: append the socio id unless already present. -/
def Libro.agregarReserva (l : Libro) (socioId : Int) : Libro :=
  if l.reservas.contains socioId then l
  else { l with reservas := l.reservas ++ [socioId] }

/-- `Libro.obtenerProximaReserva`: head of the queue without removal. -/
def Libro.obtenerProximaReserva (l : Libro) : Option Int :=
  l.reservas.head?

/-- `Libro.quitarProximaReserva`: `Array.shift` — remove and return the
head of the queue. -/
def Libro.quitarProximaReserva (l : Libro) : Option Int × Libro :=
  (l.reservas.head?, { l with reservas := l.reservas.tail })

/-- `Libro.tieneReservas`. -/
def Libro.tieneReservas (l : Libro) : Bool :=
  decide (0 < l.reservas.length)

/-- `Libro.getCantidadReservas`. -/
def Libro.getCantidadReservas (l : Libro) : Nat :=
  l.reservas.length

/-- `Libro.socioTieneReserva`: `Array.includes`. -/
def Libro.socioTieneReserva (l : Libro) (socioId : Int) : Bool :=
  l.reservas.contains socioId

/-- `Libro.cancelarReservaSocio`: `indexOf` + `splice` — remove the first
occurrence of the id, reporting whether one was removed. -/
def Libro.cancelarReservaSocio (l : Libro) (socioId : Int) : Bool × Libro :=
  if l.reservas.contains socioId then
    (true, { l with reservas := l.reservas.erase socioId })
  else
    (false, l)

/-- The error kinds of the source, one constructor per `throw` site of the
circulation core. -/
inductive LibError
  | socioNoEncontrado
  | libroNoEncontrado
  | socioOLibroNoEncontrado
  | libroNoDisponible
  | libroDisponible
  | yaTieneReserva
  | multasPendientes
  | noTienePrestado
  | noRenovarConMultas
  | libroVencidoNoRenovable
  | montoInvalido
  | diasAdicionalesInvalidos
  | hayReservasPendientes
deriving DecidableEq

/-- Loan status as returned by `Prestamo.getEstado`. -/
inductive EstadoPrestamo
  | vigente
  | por_vencer
  | vencido
deriving DecidableEq

/-- `Prestamo`: the lent book (by ISBN, see header comment), due instant and
start instant. -/
structure Prestamo where
  libroIsbn : String
  vencimiento : Int
  fechaPrestamo : Int
deriving DecidableEq

/-- `Prestamo.estaVencido`: `new Date() > vencimiento`. -/
def Prestamo.estaVencido (now : Int) (p : Prestamo) : Bool :=
  decide (now > p.vencimiento)

/-- `Prestamo.diasVencido`: 0 if not overdue, else the ceiling of the
overdue time in days. -/
def Prestamo.diasVencido (now : Int) (p : Prestamo) : Int :=
  if ! p.estaVencido now then 0
  else ceilDiv (now - p.vencimiento) msPerDay

/-- `Prestamo.calcularMulta`: overdue days times the per-diem rate
(50 at every call site of the source). -/
def Prestamo.calcularMulta (now : Int) (p : Prestamo) (multaPorDia : Int) : Int :=
  p.diasVencido now * multaPorDia

/-- `Prestamo.getEstado`: `vencido` / `por_vencer` / `vigente` from the
ceiling of the time left until the due instant, in days. -/
def Prestamo.getEstado (now : Int) (p : Prestamo) : EstadoPrestamo :=
  let diferenciaDias := ceilDiv (p.vencimiento - now) msPerDay
  if diferenciaDias < 0 then .vencido
  else if diferenciaDias ≤ 3 then .por_vencer
  else .vigente

/-- `Prestamo.diasRestantes`: ceiling of the time left, negative once due. -/
def Prestamo.diasRestantes (now : Int) (p : Prestamo) : Int :=
  ceilDiv (p.vencimiento - now) msPerDay

/-- `Prestamo.extenderPrestamo`: reject non-positive extensions, otherwise
push the due instant forward by whole days. -/
def Prestamo.extenderPrestamo (p : Prestamo) (diasAdicionales : Int) : Option LibError × Prestamo :=
  if diasAdicionales ≤ 0 then (some .diasAdicionalesInvalidos, p)
  else (none, { p with vencimiento := p.vencimiento + diasAdicionales * msPerDay })

/-- `Socio`: identity and contact data, the active loans, the read history,
the notification store (the per-socio `GestorNotificaciones` inlined as its
list, newest first) and the accumulated fine balance. -/
structure Socio where
  id : Int
  nombre : String
  apellido : String
  email : Option String
  telefono : Option String
  prestamos : List Prestamo
  historialLectura : List Libro
  notificaciones : List Notificacion
  multasPendientes : Int
  fechaRegistro : Int
deriving DecidableEq

/-- `Socio.tienePrestadoLibro`: `Array.find` with reference equality on the
book, i.e. first active loan whose ISBN matches (see header comment). -/
def Socio.tienePrestadoLibro (s : Socio) (libro : Libro) : Option Prestamo :=
  s.prestamos.find? (fun p => p.libroIsbn == libro.isbn)

/-- `Socio.retirar`: reject when the stored fine balance is positive (the
check reads `multasPendientes`, not the computed projection), otherwise
create a loan due `duracion` days from now, store it and notify. -/
def Socio.retirar (now : Int) (s : Socio) (libro : Libro) (duracion : Int) :
    Option LibError × Socio :=
  if 0 < s.multasPendientes then (some .multasPendientes, s)
  else
    let vencimiento := now + duracion * msPerDay
    let prestamo : Prestamo := ⟨libro.isbn, vencimiento, now⟩
    let s := { s with prestamos := s.prestamos ++ [prestamo] }
    let s := { s with notificaciones :=
      crearNotificacion now .renovacion_disponible .baja s.notificaciones }
    (none, s)

/-- `Socio.devolver`: reject when the book is not held; otherwise remove the
loan (`indexOf` + `splice` on the loan found first), add the book to the
read history unless an entry with the same ISBN exists, and if the loan is
overdue add its fine to the stored balance and notify. -/
def Socio.devolver (now : Int) (s : Socio) (libro : Libro) : Option LibError × Socio :=
  match s.tienePrestadoLibro libro with
  | none => (some .noTienePrestado, s)
  | some prestamo =>
    let indice := s.prestamos.findIdx (fun p => p.libroIsbn == libro.isbn)
    let s := { s with prestamos := s.prestamos.eraseIdx indice }
    let s :=
      if s.historialLectura.any (fun l => l.isbn == libro.isbn) then s
      else { s with historialLectura := s.historialLectura ++ [libro] }
    let s :=
      if prestamo.estaVencido now then
        let multa := prestamo.calcularMulta now 50
        let s := { s with multasPendientes := s.multasPendientes + multa }
        { s with notificaciones :=
          crearNotificacion now .multa_pendiente .alta s.notificaciones }
      else s
    (none, s)

/-- `Socio.calcularMultasPendientes`: the stored balance plus the live fine
of every currently overdue active loan. -/
def Socio.calcularMultasPendientes (now : Int) (s : Socio) : Int :=
  s.prestamos.foldl
    (fun multas prestamo =>
      if prestamo.estaVencido now then multas + prestamo.calcularMulta now 50
      else multas)
    s.multasPendientes

/-- `Socio.pagarMulta`: reject non-positive amounts, floor the stored
balance at zero, and notify when the balance just reached zero. -/
def Socio.pagarMulta (now : Int) (s : Socio) (monto : Int) : Option LibError × Socio :=
  if monto ≤ 0 then (some .montoInvalido, s)
  else
    let multasAnteriores := s.multasPendientes
    let s := { s with multasPendientes := max 0 (s.multasPendientes - monto) }
    let s :=
      if s.multasPendientes = 0 ∧ 0 < multasAnteriores then
        { s with notificaciones :=
          crearNotificacion now .multa_pendiente .media s.notificaciones }
      else s
    (none, s)

/-- `Socio.puedeRetirarLibros`: the computed fine projection is zero. -/
def Socio.puedeRetirarLibros (now : Int) (s : Socio) : Bool :=
  decide (s.calcularMultasPendientes now = 0)

/-- `Socio.renovarPrestamo`: reject when the fine projection is positive,
when the book is not held, or when the loan is already overdue; otherwise
extend the loan in place and notify. -/
def Socio.renovarPrestamo (now : Int) (s : Socio) (libro : Libro) (diasAdicionales : Int) :
    Option LibError × Socio :=
  if ! s.puedeRetirarLibros now then (some .noRenovarConMultas, s)
  else
    match s.tienePrestadoLibro libro with
    | none => (some .noTienePrestado, s)
    | some prestamo =>
      if prestamo.estaVencido now then (some .libroVencidoNoRenovable, s)
      else
        match prestamo.extenderPrestamo diasAdicionales with
        | (some e, _) => (some e, s)
        | (none, prestamoNuevo) =>
          let indice := s.prestamos.findIdx (fun p => p.libroIsbn == libro.isbn)
          let s := { s with prestamos := s.prestamos.set indice prestamoNuevo }
          let s := { s with notificaciones :=
            crearNotificacion now .renovacion_disponible .baja s.notificaciones }
          (none, s)

/-- Replace the first element satisfying `p` by `a`.  In the source, lookups
like `buscarSocio` return an object reference into the owning array and the
caller mutates that object in place; threading state explicitly, the updated
object is written back at the position `Array.find` located. -/
def setFirstBy (l : List α) (p : α → Bool) (a : α) : List α :=
  match l with
  | [] => []
  | x :: xs => if p x then a :: xs else x :: setFirstBy xs p a

/-- `Biblioteca`: the inventory of books and the registered socios.  The
author and event registries of the source are not read or written by any of
the circulation operations modelled here and are elided. -/
structure Biblioteca where
  inventario : List Libro
  socios : List Socio
deriving DecidableEq

/-- `Biblioteca.DURACION_DEFAULT`: default loan duration, 14 days. -/
def DURACION_DEFAULT : Int := 14

/-- `Biblioteca.buscarLibro`: first book with the given ISBN. -/
def Biblioteca.buscarLibro (b : Biblioteca) (isbn : String) : Option Libro :=
  b.inventario.find? (fun libro => libro.isbn == isbn)

/-- `Biblioteca.buscarSocio`: first socio with the given id. -/
def Biblioteca.buscarSocio (b : Biblioteca) (id : Int) : Option Socio :=
  b.socios.find? (fun socio => socio.id == id)

/-- `Biblioteca.libroEstaDisponible`: no socio currently holds the book
(availability is derived, never stored). -/
def Biblioteca.libroEstaDisponible (b : Biblioteca) (libro : Libro) : Bool :=
  ! b.socios.any (fun socio => (socio.tienePrestadoLibro libro).isSome)

/-- Write a mutated socio back over the object `buscarSocio` found. -/
def Biblioteca.conSocio (b : Biblioteca) (socioId : Int) (s : Socio) : Biblioteca :=
  { b with socios := setFirstBy b.socios (fun x => x.id == socioId) s }

/-- Write a mutated book back over the object `buscarLibro` found. -/
def Biblioteca.conLibro (b : Biblioteca) (isbn : String) (l : Libro) : Biblioteca :=
  { b with inventario := setFirstBy b.inventario (fun x => x.isbn == isbn) l }

/-- `Biblioteca.reservarLibro`: look up socio and book, reject when the book
is available or the socio already queued, otherwise enqueue and notify. -/
def Biblioteca.reservarLibro (now : Int) (b : Biblioteca) (socioId : Int) (libroISBN : String) :
    Option LibError × Biblioteca :=
  match b.buscarSocio socioId with
  | none => (some .socioNoEncontrado, b)
  | some socio =>
    match b.buscarLibro libroISBN with
    | none => (some .libroNoEncontrado, b)
    | some libro =>
      if b.libroEstaDisponible libro then (some .libroDisponible, b)
      else if libro.socioTieneReserva socioId then (some .yaTieneReserva, b)
      else
        let b := b.conLibro libroISBN (libro.agregarReserva socioId)
        let notifs := crearNotificacion now .reserva_disponible .media socio.notificaciones
        (none, b.conSocio socioId { socio with notificaciones := notifs })

/-- `Biblioteca.cancelarReserva`: look up the book, drop the socio's
reservation wherever it sits, and notify only when one was removed;
cancelling an absent reservation is a silent no-op. -/
def Biblioteca.cancelarReserva (now : Int) (b : Biblioteca) (socioId : Int) (libroISBN : String) :
    Option LibError × Biblioteca :=
  match b.buscarLibro libroISBN with
  | none => (some .libroNoEncontrado, b)
  | some libro =>
    let resultado := libro.cancelarReservaSocio socioId
    let b := b.conLibro libroISBN resultado.2
    if resultado.1 then
      match b.buscarSocio socioId with
      | none => (none, b)
      | some socio =>
        let notifs := crearNotificacion now .reserva_disponible .baja socio.notificaciones
        (none, b.conSocio socioId { socio with notificaciones := notifs })
    else (none, b)

/-- `Biblioteca.retirarLibro`: look up socio and book, reject when the book
is held by someone, delegate to `Socio.retirar`, then clear the socio's own
reservation for this book if one exists. -/
def Biblioteca.retirarLibro (now : Int) (b : Biblioteca) (socioId : Int) (libroISBN : String)
    (duracion : Option Int) : Option LibError × Biblioteca :=
  match b.buscarSocio socioId with
  | none => (some .socioNoEncontrado, b)
  | some socio =>
    match b.buscarLibro libroISBN with
    | none => (some .libroNoEncontrado, b)
    | some libro =>
      if ! b.libroEstaDisponible libro then (some .libroNoDisponible, b)
      else
        let duracionFinal := duracion.getD DURACION_DEFAULT
        match socio.retirar now libro duracionFinal with
        | (some e, socioFinal) => (some e, b.conSocio socioId socioFinal)
        | (none, socioFinal) =>
          let b := b.conSocio socioId socioFinal
          if libro.socioTieneReserva socioId then
            (none, b.conLibro libroISBN (libro.cancelarReservaSocio socioId).2)
          else (none, b)

/-- `Biblioteca.devolverLibro`: look up socio and book, delegate to
`Socio.devolver`, then notify the queue head and pop it — guarded by the
truthiness test `if (proximoSocioId)`, so a head id of 0 is skipped, and by
`buscarSocio` finding the head. -/
def Biblioteca.devolverLibro (now : Int) (b : Biblioteca) (socioId : Int) (libroISBN : String) :
    Option LibError × Biblioteca :=
  match b.buscarSocio socioId with
  | none => (some .socioNoEncontrado, b)
  | some socio =>
    match b.buscarLibro libroISBN with
    | none => (some .libroNoEncontrado, b)
    | some libro =>
      match socio.devolver now libro with
      | (some e, socioFinal) => (some e, b.conSocio socioId socioFinal)
      | (none, socioFinal) =>
        let b := b.conSocio socioId socioFinal
        match libro.obtenerProximaReserva with
        | none => (none, b)
        | some proximoSocioId =>
          if proximoSocioId == 0 then (none, b)
          else
            match b.buscarSocio proximoSocioId with
            | none => (none, b)
            | some proximoSocio =>
              let notifs := crearNotificacion now .reserva_disponible .alta proximoSocio.notificaciones
              let b := b.conSocio proximoSocioId { proximoSocio with notificaciones := notifs }
              (none, b.conLibro libroISBN (libro.quitarProximaReserva).2)

/-- `Biblioteca.renovarPrestamo`: look up socio and book, reject while the
book's reservation queue is non-empty, then delegate to
`Socio.renovarPrestamo`. -/
def Biblioteca.renovarPrestamo (now : Int) (b : Biblioteca) (socioId : Int) (libroISBN : String)
    (diasAdicionales : Option Int) : Option LibError × Biblioteca :=
  match b.buscarSocio socioId, b.buscarLibro libroISBN with
  | none, _ => (some .socioOLibroNoEncontrado, b)
  | some _, none => (some .socioOLibroNoEncontrado, b)
  | some socio, some libro =>
    if libro.tieneReservas then (some .hayReservasPendientes, b)
    else
      let dias := diasAdicionales.getD DURACION_DEFAULT
      let resultado := socio.renovarPrestamo now libro dias
      (resultado.1, b.conSocio socioId resultado.2)

/-- Any sequence of `pagarMulta` calls, each at its own instant and with its
own amount, applied in order; failing calls leave the socio as they found
it, exactly as a caught exception would. -/
def aplicarPagos (s : Socio) (pagos : List (Int × Int)) : Socio :=
  pagos.foldl (fun s2 pago => (Socio.pagarMulta pago.1 s2 pago.2).2) s

/-- Every reservation queue of the inventory is free of duplicates. -/
def reservasSinDuplicados (b : Biblioteca) : Prop :=
  ∀ l ∈ b.inventario, l.reservas.Nodup

/-! Concrete states used by the witnesses and counterexamples. -/

def c1autor : Autor := ⟨"A", "B", 1950⟩

def c1libroY : Libro := ⟨"Y", c1autor, "isbnY", []⟩

/-- A socio with zero stored balance holding one loan that is overdue at
instant 86400000 (one day past a due instant of 0). -/
def c1socio : Socio := ⟨7, "N", "A", none, none, [⟨"isbnX", 0, 0⟩], [], [], 0, 0⟩

def c2autor : Autor := ⟨"A", "B", 1950⟩

def c2libro : Libro := ⟨"X", c2autor, "isbnX", []⟩

def c2socio : Socio := ⟨7, "N", "A", none, none, [⟨"isbnX", 0, 0⟩], [], [], 0, 0⟩

def c3bib : Biblioteca := ⟨[], []⟩

def c4autor : Autor := ⟨"A", "B", 1950⟩

/-- A book whose reservation-queue head is the socio id 0. -/
def c4libro : Libro := ⟨"X", c4autor, "isbnX", [0]⟩

def c4socioA : Socio := ⟨1, "N", "A", none, none, [⟨"isbnX", 1000, 0⟩], [], [], 0, 0⟩

def c4socioZ : Socio := ⟨0, "Z", "Z", none, none, [], [], [], 0, 0⟩

def c4bib : Biblioteca := ⟨[c4libro], [c4socioA, c4socioZ]⟩

def c4wlibro : Libro := ⟨"X", c4autor, "isbnX", [2]⟩

def c4wsocioA : Socio := ⟨1, "N", "A", none, none, [⟨"isbnX", 1000, 0⟩], [], [], 0, 0⟩

def c4wsocioB : Socio := ⟨2, "M", "B", none, none, [], [], [], 0, 0⟩

def c4wbib : Biblioteca := ⟨[c4wlibro], [c4wsocioA, c4wsocioB]⟩

def c5prestamo : Prestamo := ⟨"isbnX", 0, 0⟩

def c6autor : Autor := ⟨"A", "B", 1950⟩

def c6libro : Libro := ⟨"X", c6autor, "isbnX", []⟩

def c6socio : Socio := ⟨1, "N", "A", none, none, [], [], [], 0, 0⟩

def c6bib : Biblioteca := ⟨[c6libro], [c6socio]⟩

def c7autor : Autor := ⟨"A", "B", 1950⟩

def c7libro : Libro := ⟨"X", c7autor, "isbnX", []⟩

def c7socio : Socio := ⟨1, "N", "A", none, none, [], [], [], 0, 0⟩

def c8autor : Autor := ⟨"A", "B", 1950⟩

def c8libro : Libro := ⟨"X", c8autor, "isbnX", [3]⟩

def c8socioA : Socio := ⟨1, "N", "A", none, none, [⟨"isbnX", 1000, 0⟩], [], [], 0, 0⟩

def c8socioB : Socio := ⟨2, "M", "B", none, none, [], [], [], 0, 0⟩

def c8bib : Biblioteca := ⟨[c8libro], [c8socioA, c8socioB]⟩

def c9autor : Autor := ⟨"A", "B", 1950⟩

def c9libro : Libro := ⟨"X", c9autor, "isbnX", []⟩

def c9socio : Socio := ⟨1, "N", "A", none, none, [⟨"isbnX", 1000, 0⟩], [], [], 0, 0⟩

def c9bib : Biblioteca := ⟨[c9libro], [c9socio]⟩

def c10socio : Socio := ⟨7, "N", "A", none, none, [⟨"isbnX", 0, 0⟩], [], [], 0, 0⟩

/-! Supporting lemmas about day arithmetic and fines. -/

theorem diasVencido_nonneg (now : Int) (p : Prestamo) : 0 ≤ p.diasVencido now := by
  unfold Prestamo.diasVencido Prestamo.estaVencido ceilDiv msPerDay
  split
  · omega
  · rename_i h
    simp at h
    omega

theorem one_le_diasVencido (now : Int) (p : Prestamo) (hv : p.estaVencido now = true) :
    1 ≤ p.diasVencido now := by
  have hlt : p.vencimiento < now := by
    simpa [Prestamo.estaVencido] using hv
  unfold Prestamo.diasVencido ceilDiv msPerDay
  rw [hv]
  simp only [Bool.not_true, Bool.false_eq_true, if_false]
  omega

theorem calcularMulta_nonneg (now : Int) (p : Prestamo) : 0 ≤ p.calcularMulta now 50 := by
  have h := diasVencido_nonneg now p
  unfold Prestamo.calcularMulta
  exact mul_nonneg h (by norm_num)

theorem calcularMulta_pos (now : Int) (p : Prestamo) (hv : p.estaVencido now = true) :
    50 ≤ p.calcularMulta now 50 := by
  have h := one_le_diasVencido now p hv
  unfold Prestamo.calcularMulta
  calc (50 : Int) = 1 * 50 := by norm_num
  _ ≤ p.diasVencido now * 50 := by
    exact mul_le_mul_of_nonneg_right h (by norm_num)

theorem estaVencido_mono (now now2 : Int) (p : Prestamo) (h : p.estaVencido now = true)
    (hle : now ≤ now2) : p.estaVencido now2 = true := by
  unfold Prestamo.estaVencido at h ⊢
  simp at h ⊢
  omega

theorem foldl_multas_eq (now : Int) (l : List Prestamo) (init : Int) :
    l.foldl
      (fun multas prestamo =>
        if prestamo.estaVencido now then multas + prestamo.calcularMulta now 50 else multas)
      init
      = init + (l.map (fun p => if p.estaVencido now then p.calcularMulta now 50 else 0)).sum := by
  induction l generalizing init with
  | nil => simp
  | cons p t ih =>
    simp only [List.foldl_cons, List.map_cons, List.sum_cons, ih]
    by_cases hv : p.estaVencido now = true <;> simp [hv] <;> omega

theorem calcularMultasPendientes_pos (now : Int) (s : Socio)
    (h0 : 0 ≤ s.multasPendientes) (p : Prestamo) (hp : p ∈ s.prestamos)
    (hv : p.estaVencido now = true) :
    0 < s.calcularMultasPendientes now := by
  unfold Socio.calcularMultasPendientes
  rw [foldl_multas_eq]
  have hnn : ∀ x ∈ s.prestamos.map
      (fun q => if q.estaVencido now then q.calcularMulta now 50 else 0), 0 ≤ x := by
    intro x hx
    rcases List.mem_map.mp hx with ⟨q, _, rfl⟩
    split
    · exact calcularMulta_nonneg now q
    · omega
  have hmem : (if p.estaVencido now then p.calcularMulta now 50 else 0) ∈
      s.prestamos.map (fun q => if q.estaVencido now then q.calcularMulta now 50 else 0) :=
    List.mem_map_of_mem _ hp
  have hle := List.single_le_sum hnn _ hmem
  rw [hv] at hle
  simp at hle
  have := calcularMulta_pos now p hv
  omega

theorem calcularMultasPendientes_nonneg (now : Int) (s : Socio)
    (h0 : 0 ≤ s.multasPendientes) : 0 ≤ s.calcularMultasPendientes now := by
  unfold Socio.calcularMultasPendientes
  rw [foldl_multas_eq]
  have hnn : ∀ x ∈ s.prestamos.map
      (fun q => if q.estaVencido now then q.calcularMulta now 50 else 0), 0 ≤ x := by
    intro x hx
    rcases List.mem_map.mp hx with ⟨q, _, rfl⟩
    split
    · exact calcularMulta_nonneg now q
    · omega
  have := List.sum_nonneg hnn
  omega

/-! Supporting lemmas about `setFirstBy`. -/

theorem setFirstBy_self (l : List α) (p : α → Bool) (x : α) (h : l.find? p = some x) :
    setFirstBy l p x = l := by
  induction l with
  | nil => simp at h
  | cons a t ih =>
    unfold setFirstBy
    by_cases hp : p a
    · rw [List.find?_cons_of_pos _ hp] at h
      injection h with h2
      subst h2
      simp [hp]
    · rw [List.find?_cons_of_neg _ hp] at h
      simp [hp, ih h]

theorem setFirstBy_find_same (l : List α) (p : α → Bool) (x a : α)
    (h : l.find? p = some x) (ha : p a = true) :
    (setFirstBy l p a).find? p = some a := by
  induction l with
  | nil => simp at h
  | cons y t ih =>
    unfold setFirstBy
    by_cases hp : p y
    · simp only [hp, if_true]
      exact List.find?_cons_of_pos _ ha
    · rw [List.find?_cons_of_neg _ hp] at h
      simp only [hp, Bool.false_eq_true, if_false]
      rw [List.find?_cons_of_neg _ hp]
      exact ih h

theorem setFirstBy_find_other (l : List α) (p q : α → Bool) (a : α)
    (hpq : ∀ y, p y = true → q y = false) (ha : q a = false) :
    (setFirstBy l p a).find? q = l.find? q := by
  induction l with
  | nil => rfl
  | cons y t ih =>
    unfold setFirstBy
    by_cases hp : p y
    · have hq : q y = false := hpq y hp
      simp only [hp, if_true]
      rw [List.find?_cons_of_neg _ (by simp [ha]), List.find?_cons_of_neg _ (by simp [hq])]
    · simp only [hp, Bool.false_eq_true, if_false]
      by_cases hqy : q y
      · rw [List.find?_cons_of_pos _ hqy, List.find?_cons_of_pos _ hqy]
      · rw [List.find?_cons_of_neg _ hqy, List.find?_cons_of_neg _ hqy, ih]

theorem mem_setFirstBy (l : List α) (p : α → Bool) (a x : α)
    (h : x ∈ setFirstBy l p a) : x ∈ l ∨ x = a := by
  induction l with
  | nil => simp [setFirstBy] at h
  | cons y t ih =>
    unfold setFirstBy at h
    by_cases hp : p y
    · simp [hp] at h
      rcases h with h | h
      · right
        exact h
      · left
        exact List.mem_cons_of_mem _ h
    · simp [hp] at h
      rcases h with h | h
      · left
        simp [h]
      · rcases ih h with h2 | h2
        · left
          exact List.mem_cons_of_mem _ h2
        · right
          exact h2

/-! Supporting lemmas about the `Socio` operations. -/

theorem Socio.retirar_of_error (now : Int) (s : Socio) (libro : Libro) (d : Int)
    (h : ((s.retirar now libro d).1).isSome) : (s.retirar now libro d).2 = s := by
  unfold Socio.retirar at h ⊢
  split at h
  · split
    · rfl
    · simp_all
  · simp at h

theorem Socio.retirar_of_success (now : Int) (s : Socio) (libro : Libro) (d : Int)
    (h : ¬ 0 < s.multasPendientes) :
    s.retirar now libro d =
      (none, { s with
        prestamos := s.prestamos ++ [⟨libro.isbn, now + d * msPerDay, now⟩],
        notificaciones :=
          crearNotificacion now .renovacion_disponible .baja s.notificaciones }) := by
  unfold Socio.retirar
  simp [h]

theorem Socio.devolver_of_error (now : Int) (s : Socio) (libro : Libro)
    (h : ((s.devolver now libro).1).isSome) : (s.devolver now libro).2 = s := by
  unfold Socio.devolver at h ⊢
  cases htp : s.tienePrestadoLibro libro with
  | none => rfl
  | some p => simp [htp] at h

theorem Socio.devolver_multas_of_not_vencido (now : Int) (s : Socio) (libro : Libro)
    (p : Prestamo) (hp : s.tienePrestadoLibro libro = some p)
    (hv : p.estaVencido now = false) :
    ((s.devolver now libro).2).multasPendientes = s.multasPendientes := by
  unfold Socio.devolver
  rw [hp]
  simp only [hv, Bool.false_eq_true, if_false]
  split <;> rfl

theorem Socio.devolver_id (now : Int) (s : Socio) (libro : Libro) :
    ((s.devolver now libro).2).id = s.id := by
  unfold Socio.devolver
  cases htp : s.tienePrestadoLibro libro with
  | none => rfl
  | some p =>
    simp only
    split <;> split <;> rfl

theorem Socio.devolver_prestamos (now : Int) (s : Socio) (libro : Libro)
    (p : Prestamo) (hp : s.tienePrestadoLibro libro = some p) :
    ((s.devolver now libro).2).prestamos =
      s.prestamos.eraseIdx (s.prestamos.findIdx (fun q => q.libroIsbn == libro.isbn)) := by
  unfold Socio.devolver
  rw [hp]
  simp only
  split <;> split <;> rfl

theorem Socio.renovarPrestamo_of_error (now : Int) (s : Socio) (libro : Libro) (dias : Int)
    (h : ((s.renovarPrestamo now libro dias).1).isSome) :
    (s.renovarPrestamo now libro dias).2 = s := by
  by_cases h1 : s.puedeRetirarLibros now
  · cases htp : s.tienePrestadoLibro libro with
    | none => simp [Socio.renovarPrestamo, h1, htp]
    | some p =>
      by_cases h2 : p.estaVencido now
      · simp [Socio.renovarPrestamo, h1, htp, h2]
      · by_cases h3 : dias ≤ 0
        · simp [Socio.renovarPrestamo, Prestamo.extenderPrestamo, h1, htp, h2, h3]
        · simp [Socio.renovarPrestamo, Prestamo.extenderPrestamo, h1, htp, h2, h3] at h
  · simp [Socio.renovarPrestamo, h1]

theorem Socio.pagarMulta_of_error (now : Int) (s : Socio) (monto : Int)
    (h : ((s.pagarMulta now monto).1).isSome) : (s.pagarMulta now monto).2 = s := by
  unfold Socio.pagarMulta at h ⊢
  split at h
  · split
    · rfl
    · simp_all
  · simp at h

theorem Socio.pagarMulta_prestamos (now : Int) (s : Socio) (monto : Int) :
    ((s.pagarMulta now monto).2).prestamos = s.prestamos := by
  unfold Socio.pagarMulta
  split
  · rfl
  · dsimp only
    split <;> rfl

theorem Socio.pagarMulta_nonneg (now : Int) (s : Socio) (monto : Int)
    (h : 0 ≤ s.multasPendientes) :
    0 ≤ ((s.pagarMulta now monto).2).multasPendientes := by
  unfold Socio.pagarMulta
  split
  · exact h
  · dsimp only
    split
    · exact le_max_left 0 _
    · exact le_max_left 0 _

theorem tienePrestado_of_prestamos_append (t : Socio) (libro : Libro) (l : List Prestamo)
    (pn : Prestamo) (hl : t.prestamos = l ++ [pn])
    (hnone : l.find? (fun p => p.libroIsbn == libro.isbn) = none)
    (hisbn : pn.libroIsbn = libro.isbn) :
    t.tienePrestadoLibro libro = some pn := by
  unfold Socio.tienePrestadoLibro
  rw [hl]
  simp [List.find?_append, hnone, List.find?_cons, hisbn]

theorem aplicarPagos_inv (pagos : List (Int × Int)) (s : Socio)
    (h0 : 0 ≤ s.multasPendientes) :
    0 ≤ (aplicarPagos s pagos).multasPendientes ∧
      (aplicarPagos s pagos).prestamos = s.prestamos := by
  induction pagos generalizing s with
  | nil => exact ⟨h0, rfl⟩
  | cons pg t ih =>
    unfold aplicarPagos at ih ⊢
    simp only [List.foldl_cons]
    have h2 := Socio.pagarMulta_nonneg pg.1 s pg.2 h0
    have h3 := Socio.pagarMulta_prestamos pg.1 s pg.2
    rcases ih _ h2 with ⟨ha, hb⟩
    exact ⟨ha, by rw [hb, h3]⟩

/-! Supporting lemmas about the `Biblioteca` operations. -/

theorem Biblioteca.conSocio_self (b : Biblioteca) (socioId : Int) (socio : Socio)
    (hs : b.buscarSocio socioId = some socio) : b.conSocio socioId socio = b := by
  unfold Biblioteca.conSocio
  unfold Biblioteca.buscarSocio at hs
  rw [setFirstBy_self _ _ _ hs]

theorem Biblioteca.buscarLibro_conSocio (b : Biblioteca) (socioId : Int) (s : Socio)
    (isbn : String) : (b.conSocio socioId s).buscarLibro isbn = b.buscarLibro isbn := rfl

theorem Biblioteca.buscarSocio_conLibro (b : Biblioteca) (isbn : String) (l : Libro)
    (id2 : Int) : (b.conLibro isbn l).buscarSocio id2 = b.buscarSocio id2 := rfl

theorem Libro.agregarReserva_isbn (l : Libro) (m : Int) :
    (l.agregarReserva m).isbn = l.isbn := by
  unfold Libro.agregarReserva
  split <;> rfl

theorem Libro.agregarReserva_of_not_mem (l : Libro) (m : Int)
    (h : l.reservas.contains m = false) :
    (l.agregarReserva m).reservas = l.reservas ++ [m] := by
  have h2 : m ∉ l.reservas := by simpa using h
  unfold Libro.agregarReserva
  simp [h2]

theorem nodup_tail {l : List Int} (h : l.Nodup) : l.tail.Nodup := by
  cases l with
  | nil => simp
  | cons x t => exact h.of_cons

theorem Libro.agregarReserva_nodup (l : Libro) (m : Int) (h : l.reservas.Nodup) :
    ((l.agregarReserva m).reservas).Nodup := by
  unfold Libro.agregarReserva
  split
  · exact h
  · rename_i hc
    have hc2 : m ∉ l.reservas := by simpa using hc
    simp [List.nodup_append, h, hc2]

theorem Libro.cancelarReservaSocio_nodup (l : Libro) (m : Int) (h : l.reservas.Nodup) :
    (((l.cancelarReservaSocio m).2).reservas).Nodup := by
  unfold Libro.cancelarReservaSocio
  split
  · exact h.erase m
  · exact h

theorem reservasSinDuplicados_conSocio (b : Biblioteca) (socioId : Int) (s : Socio)
    (h : reservasSinDuplicados b) : reservasSinDuplicados (b.conSocio socioId s) := h

theorem reservasSinDuplicados_conLibro (b : Biblioteca) (isbn : String) (lx : Libro)
    (hb : reservasSinDuplicados b) (hx : lx.reservas.Nodup) :
    reservasSinDuplicados (b.conLibro isbn lx) := by
  intro l hl
  rcases mem_setFirstBy _ _ _ _ hl with h | h
  · exact hb l h
  · rw [h]
    exact hx

/-! Claims. -/

/-- C1, counterexample: a socio whose fine projection is strictly positive —
zero stored balance but a loan one full day overdue — is nonetheless allowed
to borrow: `retirar` succeeds because it checks only the stored balance.
This refutes the claim that a positive `outstandingFines()` projection always
has borrowing rejected with `OutstandingFines`. -/
theorem C1_counterexample :
    0 < Socio.calcularMultasPendientes 86400000 c1socio ∧
    (Socio.retirar 86400000 c1socio c1libroY 14).1 = none := by
  decide

/-- C1, amended: a borrow request is rejected with `OutstandingFines` exactly
when the socio's *stored* fine balance is positive; with a non-positive
stored balance the borrow succeeds regardless of the live fines of currently
overdue active loans. -/
theorem C1_amended_stored_balance_gates_borrow (now : Int) (s : Socio) (libro : Libro) (d : Int) :
    ((s.retirar now libro d).1 = some LibError.multasPendientes ↔ 0 < s.multasPendientes) ∧
    (s.multasPendientes ≤ 0 → (s.retirar now libro d).1 = none) := by
  constructor
  · constructor
    · intro h
      by_contra hneg
      unfold Socio.retirar at h
      simp [hneg] at h
    · intro h
      unfold Socio.retirar
      simp [h]
  · intro h
    have hneg : ¬ 0 < s.multasPendientes := by omega
    unfold Socio.retirar
    simp [hneg]

/-- C1, witness: the amended theorem applied to a concrete eligible socio. -/
theorem C1_witness : (Socio.retirar 0 c1socio c1libroY 14).1 = none :=
  (C1_amended_stored_balance_gates_borrow 0 c1socio c1libroY 14).2 (by decide)

/-- C2, counterexample: a socio with zero stored balance holding a loan one
day overdue has the renewal of that very loan rejected with
`OutstandingFines` (`noRenovarConMultas`), not with `MustReturnFirst`
(`libroVencidoNoRenovable`): the fines guard runs first and the overdue loan
itself makes the projection positive. -/
theorem C2_counterexample :
    (Socio.renovarPrestamo 86400000 c2socio c2libro 14).1 = some LibError.noRenovarConMultas ∧
    (Socio.renovarPrestamo 86400000 c2socio c2libro 14).1 ≠
      some LibError.libroVencidoNoRenovable := by
  decide

/-- C2, amended: whenever a socio with a non-negative stored balance
actively holds a loan on a copy and that loan is overdue, renewing that copy
fails with `OutstandingFines` (`noRenovarConMultas`) — the `MustReturnFirst`
branch is unreachable for it, because the overdue loan's own live fine makes
the projection positive. -/
theorem C2_amended_overdue_renew_hits_fines_guard (now : Int) (s : Socio) (libro : Libro)
    (dias : Int) (h0 : 0 ≤ s.multasPendientes) (p : Prestamo)
    (hp : s.tienePrestadoLibro libro = some p) (hv : p.estaVencido now = true) :
    (s.renovarPrestamo now libro dias).1 = some LibError.noRenovarConMultas := by
  have hmem : p ∈ s.prestamos := List.mem_of_find?_eq_some hp
  have hpos := calcularMultasPendientes_pos now s h0 p hmem hv
  have hfalse : s.puedeRetirarLibros now = false := by
    unfold Socio.puedeRetirarLibros
    simp
    omega
  unfold Socio.renovarPrestamo
  simp [hfalse]

/-- C2, witness: the amended theorem applied to the concrete overdue state. -/
theorem C2_witness :
    (Socio.renovarPrestamo 86400000 c2socio c2libro 14).1 = some LibError.noRenovarConMultas :=
  C2_amended_overdue_renew_hits_fines_guard 86400000 c2socio c2libro 14 (by decide)
    ⟨"isbnX", 0, 0⟩ (by decide) (by decide)

/-- C5, counterexample: one millisecond past the due instant the loan is
overdue (`estaVencido` is true) yet `getEstado` still reports `por_vencer`,
because its day difference is computed with a ceiling and only goes negative
a full day after the due instant.  This refutes the claim that the status is
`overdue` exactly when `isOverdue()` is true. -/
theorem C5_counterexample :
    Prestamo.estaVencido 1 c5prestamo = true ∧
    Prestamo.getEstado 1 c5prestamo = EstadoPrestamo.por_vencer ∧
    Prestamo.getEstado 1 c5prestamo ≠ EstadoPrestamo.vencido := by
  decide

/-- C5, amended: `getEstado` reports `vencido` exactly when the due instant
lies at least one full day in the past; `por_vencer` exactly when the due
instant is less than one full day in the past or at most three days in the
future; `vigente` otherwise — while `estaVencido` is true as soon as the due
instant has passed at all, so the two notions of "overdue" differ on the
first day past due. -/
theorem C5_amended_estado_characterisation (now : Int) (p : Prestamo) :
    (p.getEstado now = EstadoPrestamo.vencido ↔ p.vencimiento + msPerDay ≤ now) ∧
    (p.getEstado now = EstadoPrestamo.por_vencer ↔
      now < p.vencimiento + msPerDay ∧ p.vencimiento ≤ now + 3 * msPerDay) ∧
    (p.getEstado now = EstadoPrestamo.vigente ↔ now + 3 * msPerDay < p.vencimiento) ∧
    (p.estaVencido now = true ↔ p.vencimiento < now) := by
  unfold Prestamo.getEstado Prestamo.estaVencido ceilDiv msPerDay
  dsimp only
  split
  · rename_i h1
    simp_all
    omega
  · split
    · rename_i h1 h2
      simp_all
      omega
    · rename_i h1 h2
      simp_all
      omega

/-- C6, counterexample: a borrow request with duration 0 — a non-positive
duration — succeeds instead of failing with `InvalidArgument`: neither the
coordinator nor the socio validates the borrow duration. -/
theorem C6_counterexample :
    (Biblioteca.retirarLibro 0 c6bib 1 "isbnX" (some 0)).1 = none := by
  decide

/-- C6, amended: borrowing performs no duration validation — an eligible
socio borrowing with a non-positive duration succeeds, creating a loan whose
due instant is not in the future; `InvalidArgument` is raised only by the
payment (`pagarMulta`) and extension (`extenderPrestamo`) operations for
their non-positive amounts. -/
theorem C6_amended_borrow_skips_duration_check (now : Int) (s : Socio) (libro : Libro) (d : Int)
    (hd : d ≤ 0) (h0 : s.multasPendientes ≤ 0) :
    (s.retirar now libro d).1 = none ∧
    ((s.retirar now libro d).2).prestamos =
      s.prestamos ++ [⟨libro.isbn, now + d * msPerDay, now⟩] ∧
    (∀ p : Prestamo, (p.extenderPrestamo d).1 = some LibError.diasAdicionalesInvalidos) ∧
    (∀ s2 : Socio, (s2.pagarMulta now d).1 = some LibError.montoInvalido) := by
  have h1 : ¬ 0 < s.multasPendientes := by omega
  rw [Socio.retirar_of_success now s libro d h1]
  refine ⟨rfl, rfl, ?_, ?_⟩
  · intro p
    unfold Prestamo.extenderPrestamo
    simp [hd]
  · intro s2
    unfold Socio.pagarMulta
    simp [hd]

/-- C6, witness: the amended theorem applied to a concrete borrow with
duration 0. -/
theorem C6_witness : (Socio.retirar 0 c6socio c6libro 0).1 = none :=
  (C6_amended_borrow_skips_duration_check 0 c6socio c6libro 0 (by decide) (by decide)).1

/-- C7: borrowing a copy not already held and returning it at any instant
not past the loan's due instant leaves the stored fine balance exactly as it
was before the borrow. -/
theorem C7_roundtrip_preserves_balance (now nowR : Int) (s : Socio) (libro : Libro) (d : Int)
    (hfree : s.tienePrestadoLibro libro = none)
    (helig : ¬ 0 < s.multasPendientes)
    (hontime : nowR ≤ now + d * msPerDay) :
    ((((s.retirar now libro d).2).devolver nowR libro).2).multasPendientes =
      s.multasPendientes := by
  have hs1 := Socio.retirar_of_success now s libro d helig
  have hfree2 : s.prestamos.find? (fun p => p.libroIsbn == libro.isbn) = none := hfree
  have hfind := tienePrestado_of_prestamos_append ((s.retirar now libro d).2) libro s.prestamos
    ⟨libro.isbn, now + d * msPerDay, now⟩ (by rw [hs1]) hfree2 rfl
  have hnv : (⟨libro.isbn, now + d * msPerDay, now⟩ : Prestamo).estaVencido nowR = false := by
    simp [Prestamo.estaVencido]
    omega
  have h3 := Socio.devolver_multas_of_not_vencido nowR ((s.retirar now libro d).2) libro _
    hfind hnv
  rw [h3, hs1]

/-- C7, witness: the round-trip theorem applied to a concrete borrow at
instant 0 returned at instant 5. -/
theorem C7_witness :
    ((((Socio.retirar 0 c7socio c7libro 14).2).devolver 5 c7libro).2).multasPendientes =
      c7socio.multasPendientes :=
  C7_roundtrip_preserves_balance 0 5 c7socio c7libro 14 (by decide) (by decide) (by decide)

/-- C10: a socio holding a currently overdue active loan cannot borrow, and
no sequence of `pagarMulta` calls changes that while the loan remains held —
payments only lower the stored balance, never the live fine of the overdue
loan, which keeps the projection positive at every later instant. -/
theorem C10_payments_cannot_unblock (now nowR : Int) (s : Socio) (p : Prestamo)
    (h0 : 0 ≤ s.multasPendientes) (hp : p ∈ s.prestamos)
    (hv : p.estaVencido now = true) (hle : now ≤ nowR) (pagos : List (Int × Int)) :
    s.puedeRetirarLibros now = false ∧
    (aplicarPagos s pagos).puedeRetirarLibros nowR = false := by
  constructor
  · have hpos := calcularMultasPendientes_pos now s h0 p hp hv
    unfold Socio.puedeRetirarLibros
    simp
    omega
  · rcases aplicarPagos_inv pagos s h0 with ⟨ha, hb⟩
    have hv2 : p.estaVencido nowR = true := estaVencido_mono now nowR p hv hle
    have hp2 : p ∈ (aplicarPagos s pagos).prestamos := by rw [hb]; exact hp
    have hpos := calcularMultasPendientes_pos nowR (aplicarPagos s pagos) ha p hp2 hv2
    unfold Socio.puedeRetirarLibros
    simp
    omega

/-- C3: every coordinator operation is atomic with respect to its own
preconditions — whenever borrow, reserve, cancel-reservation, return or
renew fails (returns an error), the entire library state (all loans, fine
balances, read histories, notification stores and reservation queues) is
exactly what it was before the call. -/
theorem C3_failures_leave_state_unchanged (now : Int) (b : Biblioteca) (socioId : Int)
    (isbn : String) (dur dias : Option Int) :
    (((b.retirarLibro now socioId isbn dur).1).isSome →
        (b.retirarLibro now socioId isbn dur).2 = b) ∧
    (((b.reservarLibro now socioId isbn).1).isSome →
        (b.reservarLibro now socioId isbn).2 = b) ∧
    (((b.cancelarReserva now socioId isbn).1).isSome →
        (b.cancelarReserva now socioId isbn).2 = b) ∧
    (((b.devolverLibro now socioId isbn).1).isSome →
        (b.devolverLibro now socioId isbn).2 = b) ∧
    (((b.renovarPrestamo now socioId isbn dias).1).isSome →
        (b.renovarPrestamo now socioId isbn dias).2 = b) := by
  refine ⟨?_, ?_, ?_, ?_, ?_⟩
  · unfold Biblioteca.retirarLibro
    cases hs : b.buscarSocio socioId with
    | none => intro h; rfl
    | some socio =>
      dsimp only
      cases hl : b.buscarLibro isbn with
      | none => intro h; rfl
      | some libro =>
        dsimp only
        cases hd : b.libroEstaDisponible libro with
        | false =>
          rw [if_pos (by decide)]
          intro h
          rfl
        | true =>
          rw [if_neg (by decide)]
          cases hr : socio.retirar now libro (dur.getD DURACION_DEFAULT) with
          | mk e sf =>
            cases e with
            | none =>
              dsimp only
              cases hq : libro.socioTieneReserva socioId with
              | true =>
                rw [if_pos rfl]
                intro h
                simp at h
              | false =>
                rw [if_neg (by decide)]
                intro h
                simp at h
            | some err =>
              intro h
              dsimp only
              have h2 := Socio.retirar_of_error now socio libro (dur.getD DURACION_DEFAULT)
                (by rw [hr]; rfl)
              rw [hr] at h2
              have h3 : sf = socio := by simpa using h2
              rw [h3]
              exact Biblioteca.conSocio_self b socioId socio hs
  · unfold Biblioteca.reservarLibro
    cases hs : b.buscarSocio socioId with
    | none => intro h; rfl
    | some socio =>
      dsimp only
      cases hl : b.buscarLibro isbn with
      | none => intro h; rfl
      | some libro =>
        dsimp only
        cases hd : b.libroEstaDisponible libro with
        | true =>
          rw [if_pos rfl]
          intro h
          rfl
        | false =>
          rw [if_neg (by decide)]
          cases hr : libro.socioTieneReserva socioId with
          | true =>
            rw [if_pos rfl]
            intro h
            rfl
          | false =>
            rw [if_neg (by decide)]
            intro h
            simp at h
  · unfold Biblioteca.cancelarReserva
    cases hl : b.buscarLibro isbn with
    | none => intro h; rfl
    | some libro =>
      dsimp only
      cases hres : (libro.cancelarReservaSocio socioId).1 with
      | true =>
        rw [if_pos rfl]
        cases hs : (b.conLibro isbn ((libro.cancelarReservaSocio socioId).2)).buscarSocio
            socioId with
        | none => intro h; simp at h
        | some socio => intro h; simp at h
      | false =>
        rw [if_neg (by decide)]
        intro h
        simp at h
  · unfold Biblioteca.devolverLibro
    cases hs : b.buscarSocio socioId with
    | none => intro h; rfl
    | some socio =>
      dsimp only
      cases hl : b.buscarLibro isbn with
      | none => intro h; rfl
      | some libro =>
        dsimp only
        cases hr : socio.devolver now libro with
        | mk e sf =>
          cases e with
          | some err =>
            intro h
            dsimp only
            have h2 := Socio.devolver_of_error now socio libro (by rw [hr]; rfl)
            rw [hr] at h2
            have h3 : sf = socio := by simpa using h2
            rw [h3]
            exact Biblioteca.conSocio_self b socioId socio hs
          | none =>
            dsimp only
            cases hq : libro.obtenerProximaReserva with
            | none => intro h; simp at h
            | some nxId =>
              dsimp only
              by_cases hz : (nxId == 0) = true
              · rw [if_pos hz]
                intro h
                simp at h
              · rw [if_neg hz]
                cases hs2 : (b.conSocio socioId sf).buscarSocio nxId with
                | none => intro h; simp at h
                | some nx => intro h; simp at h
  · unfold Biblioteca.renovarPrestamo
    cases hs : b.buscarSocio socioId with
    | none => intro h; rfl
    | some socio =>
      dsimp only
      cases hl : b.buscarLibro isbn with
      | none => intro h; rfl
      | some libro =>
        dsimp only
        cases ht : libro.tieneReservas with
        | true =>
          rw [if_pos rfl]
          intro h
          rfl
        | false =>
          rw [if_neg (by decide)]
          dsimp only
          intro h
          have h2 := Socio.renovarPrestamo_of_error now socio libro
            (dias.getD DURACION_DEFAULT) h
          rw [h2]
          exact Biblioteca.conSocio_self b socioId socio hs

/-- C3, witness: the atomicity theorem applied to an empty library, where
borrow and return both fail with a lookup error and leave the state as it
was. -/
theorem C3_witness :
    (Biblioteca.retirarLibro 0 c3bib 1 "isbnX" none).2 = c3bib ∧
    (Biblioteca.devolverLibro 0 c3bib 1 "isbnX").2 = c3bib :=
  ⟨(C3_failures_leave_state_unchanged 0 c3bib 1 "isbnX" none none).1 (by decide),
   (C3_failures_leave_state_unchanged 0 c3bib 1 "isbnX" none none).2.2.2.1 (by decide)⟩

/-- C4, counterexample: a successful return of a copy whose non-empty
reservation queue is headed by the socio id 0 notifies nobody and pops
nothing — the source guards the hand-off with the truthy test
`if (proximoSocioId)`, and the number 0 is falsy in JavaScript.  This
refutes the claim that on every successful return with a non-empty queue the
head is notified and removed. -/
theorem C4_counterexample :
    (Biblioteca.devolverLibro 5 c4bib 1 "isbnX").1 = none ∧
    (((Biblioteca.devolverLibro 5 c4bib 1 "isbnX").2).buscarLibro "isbnX").map Libro.reservas =
      some [0] ∧
    (((Biblioteca.devolverLibro 5 c4bib 1 "isbnX").2).buscarSocio 0).map Socio.notificaciones =
      some [] := by
  decide

/-- C4, amended: on a successful return, if the copy's reservation queue has
a head whose id is nonzero (JavaScript truthiness) and names a registered
socio other than the returner, then exactly that head is notified
(`reserva_disponible`) and removed from the queue, the head's active-loan
set is untouched (no loan is created by the return), and every other socio
is untouched; if the queue is empty, the book and every socio other than the
returner are untouched, so no hand-off notification fires. -/
theorem C4_amended_handoff (now : Int) (b : Biblioteca) (socioId : Int) (isbn : String)
    (socio : Socio) (hs : b.buscarSocio socioId = some socio)
    (libro : Libro) (hl : b.buscarLibro isbn = some libro)
    (hok : (b.devolverLibro now socioId isbn).1 = none) :
    (∀ nxId cab, libro.reservas.head? = some nxId → nxId ≠ 0 → nxId ≠ socioId →
      b.buscarSocio nxId = some cab →
      (((b.devolverLibro now socioId isbn).2).buscarLibro isbn).map Libro.reservas =
          some libro.reservas.tail ∧
      (((b.devolverLibro now socioId isbn).2).buscarSocio nxId).map Socio.notificaciones =
          some (crearNotificacion now TipoNotificacion.reserva_disponible
            PrioridadNotificacion.alta cab.notificaciones) ∧
      (((b.devolverLibro now socioId isbn).2).buscarSocio nxId).map Socio.prestamos =
          some cab.prestamos ∧
      (∀ g, g ≠ socioId → g ≠ nxId →
        ((b.devolverLibro now socioId isbn).2).buscarSocio g = b.buscarSocio g)) ∧
    (libro.reservas = [] →
      ((b.devolverLibro now socioId isbn).2).buscarLibro isbn = some libro ∧
      (∀ g, g ≠ socioId →
        ((b.devolverLibro now socioId isbn).2).buscarSocio g = b.buscarSocio g)) := by
  have hs2 : b.socios.find? (fun x => x.id == socioId) = some socio := hs
  have hl2 : b.inventario.find? (fun x => x.isbn == isbn) = some libro := hl
  have hisbn : (libro.isbn == isbn) = true := by
    have h2 := List.find?_some hl2
    simpa using h2
  cases hr : Socio.devolver now socio libro with
  | mk e sf =>
    cases e with
    | some err =>
      exfalso
      unfold Biblioteca.devolverLibro at hok
      simp [hs, hl, hr] at hok
    | none =>
      have hsid : socio.id = socioId := by
        have h2 := List.find?_some hs2
        simpa using h2
      have hid : sf.id = socioId := by
        have h1 := Socio.devolver_id now socio libro
        rw [hr] at h1
        simp at h1
        rw [h1, hsid]
      constructor
      · intro nxId cab hh hz0 hns hcab
        have hcab2 : b.socios.find? (fun x => x.id == nxId) = some cab := hcab
        have hcabid : cab.id = nxId := by
          have h3 := List.find?_some hcab2
          simpa using h3
        have hq : libro.obtenerProximaReserva = some nxId := hh
        have hz : (nxId == 0) = false := by simpa using hz0
        have hpq : ∀ y : Socio, (y.id == socioId) = true → (y.id == nxId) = false := by
          intro y hy
          simp at hy ⊢
          omega
        have ha : (sf.id == nxId) = false := by
          simp [hid]
          omega
        have hstab : (b.conSocio socioId sf).buscarSocio nxId = some cab := by
          unfold Biblioteca.conSocio Biblioteca.buscarSocio
          dsimp only
          rw [setFirstBy_find_other b.socios (fun x => x.id == socioId)
            (fun x => x.id == nxId) sf hpq ha]
          exact hcab2
        have hred : b.devolverLibro now socioId isbn =
            (none, ((b.conSocio socioId sf).conSocio nxId { cab with notificaciones := crearNotificacion now TipoNotificacion.reserva_disponible PrioridadNotificacion.alta cab.notificaciones }).conLibro isbn (libro.quitarProximaReserva).2) := by
          unfold Biblioteca.devolverLibro
          simp only [hs, hl, hr, hq, hz, Bool.false_eq_true, if_false, hstab]
        rw [hred]
        dsimp only
        refine ⟨?_, ?_, ?_, ?_⟩
        · unfold Biblioteca.conLibro Biblioteca.buscarLibro
          dsimp only [Biblioteca.conSocio]
          rw [setFirstBy_find_same _ _ libro _ hl2 (by simpa using hisbn)]
          rfl
        · rw [Biblioteca.buscarSocio_conLibro]
          unfold Biblioteca.conSocio Biblioteca.buscarSocio at hstab ⊢
          dsimp only at hstab ⊢
          rw [setFirstBy_find_same _ _ cab _ hstab (by simp [hcabid])]
          rfl
        · rw [Biblioteca.buscarSocio_conLibro]
          unfold Biblioteca.conSocio Biblioteca.buscarSocio at hstab ⊢
          dsimp only at hstab ⊢
          rw [setFirstBy_find_same _ _ cab _ hstab (by simp [hcabid])]
          rfl
        · intro g hg1 hg2
          rw [Biblioteca.buscarSocio_conLibro]
          unfold Biblioteca.conSocio Biblioteca.buscarSocio
          dsimp only
          refine Eq.trans (setFirstBy_find_other _ _ _ _ ?_ ?_) ?_
          · intro y hy
            simp at hy ⊢
            omega
          · simp [hcabid]
            omega
          · exact setFirstBy_find_other b.socios (fun x => x.id == socioId)
              (fun x => x.id == g) sf (by intro y hy; simp at hy ⊢; omega)
              (by simp [hid]; omega)
      · intro hempty
        have hq : libro.obtenerProximaReserva = none := by
          unfold Libro.obtenerProximaReserva
          rw [hempty]
          rfl
        have hred : b.devolverLibro now socioId isbn = (none, b.conSocio socioId sf) := by
          unfold Biblioteca.devolverLibro
          simp only [hs, hl, hr, hq]
        rw [hred]
        dsimp only
        constructor
        · rw [Biblioteca.buscarLibro_conSocio]
          exact hl
        · intro g hg
          unfold Biblioteca.conSocio Biblioteca.buscarSocio
          dsimp only
          exact setFirstBy_find_other b.socios (fun x => x.id == socioId)
            (fun x => x.id == g) sf (by intro y hy; simp at hy ⊢; omega)
            (by simp [hid]; omega)

/-- C4, witness: the amended theorem applied to a concrete state where A
(id 1) returns the copy reserved by B (id 2): B is removed from the queue
and B's loan set stays empty. -/
theorem C4_witness :
    (((Biblioteca.devolverLibro 0 c4wbib 1 "isbnX").2).buscarLibro "isbnX").map Libro.reservas =
      some c4wlibro.reservas.tail ∧
    (((Biblioteca.devolverLibro 0 c4wbib 1 "isbnX").2).buscarSocio 2).map Socio.prestamos =
      some c4wsocioB.prestamos :=
  have h := C4_amended_handoff 0 c4wbib 1 "isbnX" c4wsocioA (by decide) c4wlibro (by decide)
    (by decide)
  ⟨(h.1 2 c4wsocioB (by decide) (by decide) (by decide) (by decide)).1,
   (h.1 2 c4wsocioB (by decide) (by decide) (by decide) (by decide)).2.2.1⟩

/-- C8: a socio id appears at most once in any reservation queue — enqueue
is idempotent (a no-op when the id is present, an append at the tail
otherwise), and freedom from duplicates is an invariant preserved by every
coordinator operation (reserve, cancel, borrow, return, renew). -/
theorem C8_queue_uniqueness_invariant (now : Int) (b : Biblioteca) (socioId : Int)
    (isbn : String) (dur dias : Option Int) (l : Libro) (m : Int)
    (hb : reservasSinDuplicados b) :
    (l.reservas.contains m = true → l.agregarReserva m = l) ∧
    (l.reservas.contains m = false → (l.agregarReserva m).reservas = l.reservas ++ [m]) ∧
    reservasSinDuplicados (b.reservarLibro now socioId isbn).2 ∧
    reservasSinDuplicados (b.cancelarReserva now socioId isbn).2 ∧
    reservasSinDuplicados (b.retirarLibro now socioId isbn dur).2 ∧
    reservasSinDuplicados (b.devolverLibro now socioId isbn).2 ∧
    reservasSinDuplicados (b.renovarPrestamo now socioId isbn dias).2 := by
  refine ⟨?_, Libro.agregarReserva_of_not_mem l m, ?_, ?_, ?_, ?_, ?_⟩
  · intro h
    have h2 : m ∈ l.reservas := by simpa using h
    unfold Libro.agregarReserva
    simp [h2]
  · unfold Biblioteca.reservarLibro
    cases hs : b.buscarSocio socioId with
    | none => exact hb
    | some socio =>
      dsimp only
      cases hl : b.buscarLibro isbn with
      | none => exact hb
      | some libro =>
        dsimp only
        cases hd : b.libroEstaDisponible libro with
        | true =>
          rw [if_pos rfl]
          exact hb
        | false =>
          rw [if_neg (by decide)]
          cases hr : libro.socioTieneReserva socioId with
          | true =>
            rw [if_pos rfl]
            exact hb
          | false =>
            rw [if_neg (by decide)]
            dsimp only
            apply reservasSinDuplicados_conSocio
            apply reservasSinDuplicados_conLibro _ _ _ hb
            apply Libro.agregarReserva_nodup
            exact hb libro (List.mem_of_find?_eq_some
              (show b.inventario.find? (fun x => x.isbn == isbn) = some libro from hl))
  · unfold Biblioteca.cancelarReserva
    cases hl : b.buscarLibro isbn with
    | none => exact hb
    | some libro =>
      dsimp only
      have hnl : (((libro.cancelarReservaSocio socioId).2).reservas).Nodup :=
        Libro.cancelarReservaSocio_nodup _ _ (hb libro (List.mem_of_find?_eq_some
          (show b.inventario.find? (fun x => x.isbn == isbn) = some libro from hl)))
      have hb2 := reservasSinDuplicados_conLibro b isbn _ hb hnl
      cases hres : (libro.cancelarReservaSocio socioId).1 with
      | true =>
        rw [if_pos rfl]
        cases hs : (b.conLibro isbn ((libro.cancelarReservaSocio socioId).2)).buscarSocio
            socioId with
        | none => exact hb2
        | some socio => exact reservasSinDuplicados_conSocio _ _ _ hb2
      | false =>
        rw [if_neg (by decide)]
        exact hb2
  · unfold Biblioteca.retirarLibro
    cases hs : b.buscarSocio socioId with
    | none => exact hb
    | some socio =>
      dsimp only
      cases hl : b.buscarLibro isbn with
      | none => exact hb
      | some libro =>
        dsimp only
        cases hd : b.libroEstaDisponible libro with
        | false =>
          rw [if_pos (by decide)]
          exact hb
        | true =>
          rw [if_neg (by decide)]
          cases hr : socio.retirar now libro (dur.getD DURACION_DEFAULT) with
          | mk e sf =>
            cases e with
            | some err => exact reservasSinDuplicados_conSocio _ _ _ hb
            | none =>
              dsimp only
              cases hq : libro.socioTieneReserva socioId with
              | true =>
                rw [if_pos rfl]
                apply reservasSinDuplicados_conLibro _ _ _
                  (reservasSinDuplicados_conSocio _ _ _ hb)
                exact Libro.cancelarReservaSocio_nodup _ _
                  (hb libro (List.mem_of_find?_eq_some
                    (show b.inventario.find? (fun x => x.isbn == isbn) = some libro from hl)))
              | false =>
                rw [if_neg (by decide)]
                exact reservasSinDuplicados_conSocio _ _ _ hb
  · unfold Biblioteca.devolverLibro
    cases hs : b.buscarSocio socioId with
    | none => exact hb
    | some socio =>
      dsimp only
      cases hl : b.buscarLibro isbn with
      | none => exact hb
      | some libro =>
        dsimp only
        cases hr : socio.devolver now libro with
        | mk e sf =>
          cases e with
          | some err => exact reservasSinDuplicados_conSocio _ _ _ hb
          | none =>
            dsimp only
            cases hq : libro.obtenerProximaReserva with
            | none => exact reservasSinDuplicados_conSocio _ _ _ hb
            | some nxId =>
              dsimp only
              by_cases hz : (nxId == 0) = true
              · rw [if_pos hz]
                exact reservasSinDuplicados_conSocio _ _ _ hb
              · rw [if_neg hz]
                cases hs2 : (b.conSocio socioId sf).buscarSocio nxId with
                | none => exact reservasSinDuplicados_conSocio _ _ _ hb
                | some nx =>
                  apply reservasSinDuplicados_conLibro
                  · exact reservasSinDuplicados_conSocio _ _ _
                      (reservasSinDuplicados_conSocio _ _ _ hb)
                  · exact nodup_tail (hb libro (List.mem_of_find?_eq_some
                      (show b.inventario.find? (fun x => x.isbn == isbn) = some libro from hl)))
  · unfold Biblioteca.renovarPrestamo
    cases hs : b.buscarSocio socioId with
    | none => exact hb
    | some socio =>
      dsimp only
      cases hl : b.buscarLibro isbn with
      | none => exact hb
      | some libro =>
        dsimp only
        cases ht : libro.tieneReservas with
        | true =>
          rw [if_pos rfl]
          exact hb
        | false =>
          rw [if_neg (by decide)]
          exact reservasSinDuplicados_conSocio _ _ _ hb

/-- C8, witness: the theorem applied to a concrete state — an append onto a
queue not containing the id, and an invariant-preserving return. -/
theorem C8_witness :
    (c8libro.agregarReserva 5).reservas = c8libro.reservas ++ [5] ∧
    reservasSinDuplicados (Biblioteca.devolverLibro 0 c8bib 1 "isbnX").2 :=
  ⟨(C8_queue_uniqueness_invariant 0 c8bib 1 "isbnX" none none c8libro 5
      (by unfold reservasSinDuplicados; decide)).2.1 (by decide),
   (C8_queue_uniqueness_invariant 0 c8bib 1 "isbnX" none none c8libro 5
      (by unfold reservasSinDuplicados; decide)).2.2.2.2.2.1⟩

/-- C9: the coordinator never checks whether the reservation requester is
the current holder — if socio `m` actively holds the loan on the copy and is
not yet in its queue, `reserve(m, copy)` succeeds and appends `m` to the
copy's reservation queue. -/
theorem C9_holder_can_reserve_own_copy (now : Int) (b : Biblioteca) (m : Int) (isbn : String)
    (socio : Socio) (hs : b.buscarSocio m = some socio)
    (libro : Libro) (hl : b.buscarLibro isbn = some libro)
    (hold : (socio.tienePrestadoLibro libro).isSome = true)
    (hnr : libro.socioTieneReserva m = false) :
    (b.reservarLibro now m isbn).1 = none ∧
    (((b.reservarLibro now m isbn).2).buscarLibro isbn).map Libro.reservas =
      some (libro.reservas ++ [m]) := by
  have hs2 : b.socios.find? (fun x => x.id == m) = some socio := hs
  have hl2 : b.inventario.find? (fun x => x.isbn == isbn) = some libro := hl
  have hmem : socio ∈ b.socios := List.mem_of_find?_eq_some hs2
  have hdisp : b.libroEstaDisponible libro = false := by
    unfold Biblioteca.libroEstaDisponible
    simp only [Bool.not_eq_false', List.any_eq_true]
    exact ⟨socio, hmem, hold⟩
  have hisbn : (libro.isbn == isbn) = true := by
    have h2 := List.find?_some hl2
    simpa using h2
  unfold Biblioteca.reservarLibro
  rw [hs, hl]
  simp only [hdisp, Bool.false_eq_true, if_false, hnr]
  constructor
  · trivial
  · rw [Biblioteca.buscarLibro_conSocio]
    unfold Biblioteca.conLibro Biblioteca.buscarLibro
    have hfind : (setFirstBy b.inventario (fun x => x.isbn == isbn)
        (libro.agregarReserva m)).find? (fun x => x.isbn == isbn) =
        some (libro.agregarReserva m) := by
      apply setFirstBy_find_same _ _ libro _ hl2
      rw [Libro.agregarReserva_isbn]
      exact hisbn
    rw [hfind]
    simp [Libro.agregarReserva_of_not_mem libro m hnr]

/-- C9, witness: the theorem applied to a concrete state where socio 1 holds
the only copy and its queue is empty. -/
theorem C9_witness :
    (Biblioteca.reservarLibro 0 c9bib 1 "isbnX").1 = none ∧
    (((Biblioteca.reservarLibro 0 c9bib 1 "isbnX").2).buscarLibro "isbnX").map Libro.reservas =
      some (c9libro.reservas ++ [1]) :=
  C9_holder_can_reserve_own_copy 0 c9bib 1 "isbnX" c9socio (by decide) c9libro (by decide)
    (by decide) (by decide)

/-- C10, witness: the theorem applied to a concrete overdue socio and one
payment of 100. -/
theorem C10_witness :
    Socio.puedeRetirarLibros 86400000 c10socio = false ∧
    (aplicarPagos c10socio [(86400000, 100)]).puedeRetirarLibros 86400000 = false :=
  C10_payments_cannot_unblock 86400000 86400000 c10socio ⟨"isbnX", 0, 0⟩ (by decide)
    (by decide) (by decide) (by decide) [(86400000, 100)]

end Tarea1
